import Mathlib

/-!
Verification of the fetch-gateway core of `src/server.py` (yt-transcript).

The development shallowly embeds the handler `transcript` (src/server.py
lines 170-221) and the throttled fetch helper `_fetch_transcript_text`
(lines 144-167) as pure Lean functions.

Modelling conventions:
- Storage (sqlite), the artifact sink (`_write_transcript_file`) and the
  upstream client are effectful; their outcomes are supplied by an
  environment `Env` (fault flags and an abstract upstream/extractor
  function).  The handler threads an explicit system state `Sys`
  (the cache table, the log of upstream fetch attempts, the artifact
  files written).
- Python exceptions are modelled by error branches; the single
  `try/except` wrapper of the handler (lines 215-221) turns every raised
  exception into an HTTP 400 response, which the model mirrors with
  `TResult.httpError 400`.
- The global throttle of `_fetch_transcript_text` is modelled over
  rational time: the `threading.Lock` serializes the critical section,
  so a set of queued calls is a sequential fold (`runJobs`) over jobs,
  each job carrying the duration of its upstream call and whether the
  call succeeds.
-/

namespace YtTranscript

/-- Request body `Req` of src/server.py lines 109-113: optional `url`,
optional `video_id`, language preference list (default
`["en","en-US","it"]`), and the `no_cache` bypass flag. -/
structure Req where
  url : Option String
  video_id : Option String
  languages : List String
  no_cache : Bool
deriving Repr, DecidableEq

/-- Environment supplying the outcomes of the handler's effects:
whether the sqlite read (line 181) and write (lines 199-203) succeed,
whether the artifact-sink write `_write_transcript_file` (lines 136-141)
succeeds, the upstream client (`_fetch_transcript_text`'s inner
list/find/fetch, lines 160-164) as a function from key and languages to
content or failure, and `extract_video_id` (lines 88-106) as a function
from a url string to a video id or failure. -/
structure Env where
  cacheReadOk : Bool
  cacheWriteOk : Bool
  sinkOk : Bool
  upstream : String → List String → Except String String
  extract : String → Except String String

/-- Observable system state threaded through the handler: the sqlite
cache table (an association list, key to text), the log of upstream
fetch attempts (each entry is the key and language list of one call to
`_fetch_transcript_text`, i.e. one throttle-gate entry and one upstream
invocation), and the artifact files written by
`_write_transcript_file`. -/
structure Sys where
  cache : List (String × String)
  fetchLog : List (String × List String)
  sinkWrites : List (String × String)
deriving Repr, DecidableEq

/-- Result of the handler: the JSON success body
`{"video_id": ..., "text": ..., "cached": ...}` (lines 192 and 213) or
the `HTTPException(status_code=400, detail=...)` raised by the
`except` block (line 221). -/
inductive TResult where
  | ok (video_id text : String) (cached : Bool)
  | httpError (status : Nat) (detail : String)
deriving Repr, DecidableEq

/-- The sqlite `INSERT OR REPLACE INTO transcripts` of lines 199-203:
an upsert on the association list (the new binding shadows and removes
any previous binding for the key). -/
def cachePut (k v : String) (c : List (String × String)) : List (String × String) :=
  (k, v) :: c.filter (fun p => p.1 ≠ k)

/-- Line 176, `video_id = req.video_id or extract_video_id(input_url)`:
Python `or` falls through on a falsy `video_id` (absent or the empty
string), in which case `extract_video_id` is applied to the stripped
url (line 174); `extract_video_id` may raise (modelled by
`Except.error`). -/
def resolve_video_id (env : Env) (req : Req) : Except String String :=
  match req.video_id with
  | some v => if v = "" then env.extract ((req.url.getD "").trim) else Except.ok v
  | none => env.extract ((req.url.getD "").trim)

/-- The `/transcript` handler, src/server.py lines 170-221.
Control flow, faithfully in source order:
1. resolve the video id (line 176); a raise lands in the `except`
   block, giving HTTP 400 with the exception text;
2. unless `no_cache`, read the cache (lines 179-183): a sqlite failure
   raises (400); a hit writes the artifact file (line 185; a failure
   there raises, 400) and returns `cached=True` (line 192);
3. on miss or bypass, call `_fetch_transcript_text` (line 195): this
   enters the throttle gate and invokes the upstream client (recorded
   in `fetchLog`); an upstream failure raises (400) with the cache
   unchanged;
4. on fetched text, upsert the cache (lines 198-204; a sqlite failure
   raises, 400, before any cache change), write the artifact file
   (line 206; a failure raises 400 with the cache already updated),
   and return `cached=False` (line 213). -/
def transcript (env : Env) (s : Sys) (req : Req) : TResult × Sys :=
  match resolve_video_id env req with
  | Except.error e => (TResult.httpError 400 e, s)
  | Except.ok video_id =>
    let hit : Except String (Option String) :=
      if req.no_cache then Except.ok none
      else if env.cacheReadOk then Except.ok (s.cache.lookup video_id)
      else Except.error "database error"
    match hit with
    | Except.error e => (TResult.httpError 400 e, s)
    | Except.ok (some text) =>
      if env.sinkOk then
        (TResult.ok video_id text true,
          { s with sinkWrites := (video_id, text) :: s.sinkWrites })
      else (TResult.httpError 400 "sink io error", s)
    | Except.ok none =>
      let s1 : Sys := { s with fetchLog := (video_id, req.languages) :: s.fetchLog }
      match env.upstream video_id req.languages with
      | Except.error e => (TResult.httpError 400 e, s1)
      | Except.ok text =>
        if env.cacheWriteOk then
          let s2 : Sys := { s1 with cache := cachePut video_id text s1.cache }
          if env.sinkOk then
            (TResult.ok video_id text false,
              { s2 with sinkWrites := (video_id, text) :: s2.sinkWrites })
          else (TResult.httpError 400 "sink io error", s2)
        else (TResult.httpError 400 "database error", s1)

/-! ## Throttle model (`_fetch_transcript_text`, lines 144-167)

The function holds the module lock `_fetch_lock` for its whole body, so
concurrent calls are serialized; a queue of calls is a sequential fold.
Each call: reads the clock (`now`), computes
`wait = MIN_SECONDS_BETWEEN_FETCHES - (now - _last_fetch_ts)`, sleeps
`wait` if positive, then starts the upstream call.  The upstream call
takes some duration and either succeeds or raises.  Only on success
does line 166 run, setting `_last_fetch_ts = time.time()` (the
completion time); a raise propagates out of the `with` block first, so
a failed attempt leaves `_last_fetch_ts` unchanged. -/

/-- One queued upstream call: the wall-clock duration of the
list/find/fetch call (lines 160-162) and whether it succeeds. -/
structure FetchJob where
  duration : ℚ
  ok : Bool
deriving Repr, DecidableEq

/-- One execution of the critical section of `_fetch_transcript_text`,
entered at clock time `now` with `_last_fetch_ts = lastTs`.  Returns
`(start, finish, lastTs')`: the start time of the upstream call (after
the conditional sleep of lines 153-155), the time the call returns or
raises, and the value of `_last_fetch_ts` afterwards (line 166 updates
it to the completion time, but only when the call succeeded). -/
def runFetch (T lastTs now : ℚ) (j : FetchJob) : ℚ × ℚ × ℚ :=
  let wait := T - (now - lastTs)
  let start := if 0 < wait then now + wait else now
  let fin := start + j.duration
  (start, fin, if j.ok then fin else lastTs)

/-- A queue of calls blocked on `_fetch_lock`, served one at a time:
each call acquires the lock the moment the previous one releases it
(at its finish time).  Returns the list of upstream-call start times
and the final `_last_fetch_ts`. -/
def runJobs (T : ℚ) : ℚ → ℚ → List FetchJob → List ℚ × ℚ
  | lastTs, _, [] => ([], lastTs)
  | lastTs, now, j :: js =>
    let r := runFetch T lastTs now j
    let rest := runJobs T r.2.2 r.2.1 js
    (r.1 :: rest.1, rest.2)

/-! ## Upstream client content model (lines 157-164) -/

/-- Modelled from the spec: the external `youtube_transcript_api`
transcript list (`ytt_api.list(video_id)`) is not part of this
repository; it is modelled as an association list from language tag to
the transcript's snippet texts in provider order, and
`find_transcript(languages)` selects the first language in the
preference list for which transcript data exists, failing when none
does. -/
def find_transcript (tl : List (String × List String)) : List String → Option (List String)
  | [] => none
  | l :: ls =>
    match tl.lookup l with
    | some segs => some segs
    | none => find_transcript tl ls

/-- The content computation of `_fetch_transcript_text` (lines
157-164): `t = tl.find_transcript(languages)`, `snippets = t.fetch()`,
`text = " ".join(s.text for s in snippets)`.  A failed language lookup
raises (modelled as `Except.error`). -/
def fetch_transcript_text (tl : List (String × List String)) (languages : List String) :
    Except String String :=
  match find_transcript tl languages with
  | some segs => Except.ok (String.intercalate " " segs)
  | none => Except.error "no transcript found"

/-! ## Throttle lemmas -/

/-- The upstream call of one critical-section execution starts at
`max now (lastTs + T)`: immediately when the minimum interval has
already elapsed at lock-acquisition time, else after sleeping until
`lastTs + T`. -/
theorem runFetch_start (T lastTs now : ℚ) (j : FetchJob) :
    (runFetch T lastTs now j).1 = max now (lastTs + T) := by
  simp only [runFetch]
  split
  · next h => rw [max_eq_right (by linarith)]; ring
  · next h => rw [max_eq_left (by linarith)]

/-- The call returns (or raises) `duration` after it starts. -/
theorem runFetch_fin (T lastTs now : ℚ) (j : FetchJob) :
    (runFetch T lastTs now j).2.1 = (runFetch T lastTs now j).1 + j.duration := by
  simp only [runFetch]

/-- Line 166 runs only on success: `_last_fetch_ts` becomes the
completion time when the call succeeds, and is untouched when it
raises. -/
theorem runFetch_last (T lastTs now : ℚ) (j : FetchJob) :
    (runFetch T lastTs now j).2.2
      = if j.ok then (runFetch T lastTs now j).2.1 else lastTs := by
  simp only [runFetch]

theorem runJobs_length (T : ℚ) (js : List FetchJob) :
    ∀ (lastTs now : ℚ), (runJobs T lastTs now js).1.length = js.length := by
  induction js with
  | nil => intro lastTs now; simp [runJobs]
  | cons j js ih => intro lastTs now; simp [runJobs, ih]

theorem runJobs_head (T lastTs now : ℚ) (j : FetchJob) (js : List FetchJob) :
    (runJobs T lastTs now (j :: js)).1.head? = some (max now (lastTs + T)) := by
  simp [runJobs, runFetch_start]

/-- When every queued call succeeds, consecutive upstream-call start
times are at least `T` apart: each successful call sets
`_last_fetch_ts` to its completion time, and the next call in the
queue acquires the lock exactly then, so it sleeps the full interval
`T`. -/
theorem runJobs_chain (T : ℚ) (js : List FetchJob) :
    ∀ (lastTs now : ℚ), (∀ j ∈ js, 0 ≤ j.duration ∧ j.ok = true) →
      List.Chain' (fun a b : ℚ => a + T ≤ b) (runJobs T lastTs now js).1 := by
  induction js with
  | nil => intro lastTs now _; simp [runJobs]
  | cons j js ih =>
    intro lastTs now h
    have hj := h j (List.mem_cons_self j js)
    have hjs : ∀ j' ∈ js, 0 ≤ j'.duration ∧ j'.ok = true :=
      fun j' hj' => h j' (List.mem_cons_of_mem j hj')
    have hstep : (runJobs T lastTs now (j :: js)).1
        = (runFetch T lastTs now j).1
            :: (runJobs T (runFetch T lastTs now j).2.2 (runFetch T lastTs now j).2.1 js).1 := rfl
    rw [hstep, List.chain'_cons']
    refine ⟨?_, ih _ _ hjs⟩
    intro b hb
    cases js with
    | nil => simp [runJobs] at hb
    | cons j2 js2 =>
      rw [runJobs_head] at hb
      simp only [Option.mem_def, Option.some.injEq] at hb
      subst hb
      have hlast : (runFetch T lastTs now j).2.2 = (runFetch T lastTs now j).2.1 := by
        rw [runFetch_last, hj.2, if_pos rfl]
      have hfin := runFetch_fin T lastTs now j
      have hd := hj.1
      calc (runFetch T lastTs now j).1 + T
          ≤ (runFetch T lastTs now j).2.1 + T := by rw [hfin]; linarith
        _ = (runFetch T lastTs now j).2.2 + T := by rw [hlast]
        _ ≤ max (runFetch T lastTs now j).2.1 ((runFetch T lastTs now j).2.2 + T) :=
            le_max_right _ _

/-- In a `T`-separated chain, entries `d` apart differ by at least
`d * T`. -/
theorem chain_gap (T : ℚ) (l : List ℚ)
    (hc : List.Chain' (fun a b : ℚ => a + T ≤ b) l) :
    ∀ (d i : ℕ) (h : i + d < l.length),
      l.get ⟨i, by omega⟩ + (d : ℚ) * T ≤ l.get ⟨i + d, h⟩ := by
  intro d
  induction d with
  | zero => intro i h; simp
  | succ d ih =>
    intro i h
    have h1 : i + d < l.length := by omega
    have step := List.chain'_iff_get.mp hc (i + d) (by omega)
    have hih := ih i h1
    push_cast
    have : l.get ⟨i + d, h1⟩ + T ≤ l.get ⟨i + (d + 1), h⟩ := step
    linarith

/-! ## Claim theorems: throttle (C1, C5) -/

/-- C1 (amended): provided every queued upstream attempt succeeds, the
upstream call start times of `N` concurrent cache-miss requests queued
on the fetch lock are pairwise at least `T` apart, and two starts `i`
and `k` positions apart differ by at least `(k-i)*T` — in particular
the last start is at least `(N-1)*T` after the first.  The original
unconditional claim is refuted by `throttle_floor_cex`: a failed
attempt does not advance `_last_fetch_ts`, so the call after a failure
may start less than `T` after it. -/
theorem throttle_floor (T lastTs now : ℚ) (hT : 0 ≤ T) (js : List FetchJob)
    (hjs : ∀ j ∈ js, 0 ≤ j.duration ∧ j.ok = true)
    (i k : ℕ) (hik : i < k) (a b : ℚ)
    (ha : (runJobs T lastTs now js).1[i]? = some a)
    (hb : (runJobs T lastTs now js).1[k]? = some b) :
    a + T ≤ b ∧ a + ((k - i : ℕ) : ℚ) * T ≤ b := by
  have hc := runJobs_chain T js lastTs now hjs
  set l := (runJobs T lastTs now js).1 with hl
  have hik' : i < l.length := (List.getElem?_eq_some.mp ha).1
  have hk : k < l.length := (List.getElem?_eq_some.mp hb).1
  have hkd : k = i + (k - i) := by omega
  have hgap := chain_gap T l hc (k - i) i (by omega)
  have ha' : l.get ⟨i, by omega⟩ = a := by
    have := (List.getElem?_eq_some.mp ha).2
    simpa [List.get_eq_getElem] using this
  have hb' : l.get ⟨i + (k - i), by omega⟩ = b := by
    have := (List.getElem?_eq_some.mp hb).2
    have h2 : l[k] = l.get ⟨i + (k - i), by omega⟩ := by
      simp [List.get_eq_getElem, hkd.symm]
    rw [h2] at this
    exact this
  rw [ha', hb'] at hgap
  have hone : (1 : ℚ) ≤ ((k - i : ℕ) : ℚ) := by
    have : 1 ≤ k - i := by omega
    exact_mod_cast this
  have hTd : T ≤ ((k - i : ℕ) : ℚ) * T := le_mul_of_one_le_left hT hone
  exact ⟨by linarith, hgap⟩

/-- Witness for `throttle_floor`: three successful calls queued at
time 0 with `T = 8` start at 8, 17 and 27; the first and third starts
are at least `8` and at least `2*8` apart. -/
theorem throttle_floor_witness :
    (8 : ℚ) + 8 ≤ 27 ∧ (8 : ℚ) + ((2 - 0 : ℕ) : ℚ) * 8 ≤ 27 :=
  throttle_floor 8 0 0 (by norm_num)
    [⟨1, true⟩, ⟨2, true⟩, ⟨1, true⟩]
    (by intro j hj; fin_cases hj <;> exact ⟨by norm_num, rfl⟩)
    0 2 (by norm_num) 8 27
    (by norm_num [runJobs, runFetch])
    (by norm_num [runJobs, runFetch])

/-- C1 counterexample: with `minInterval = 8` and `_last_fetch_ts = 0`,
a call entering the gate at time 100 whose upstream fetch fails after
1 second is followed by a call starting at 101 — two upstream call
starts only 1 apart, violating the claimed global 8-second floor. -/
theorem throttle_floor_cex :
    (runJobs 8 0 100 [⟨1, false⟩, ⟨1, true⟩]).1 = [100, 101] ∧
    ¬ ((100 : ℚ) + 8 ≤ 101) := by
  constructor
  · norm_num [runJobs, runFetch]
  · norm_num

/-- C5 (amended): `_last_fetch_ts` is updated only by a successful
attempt, to that attempt's completion time; a failing upstream fetch
leaves it unchanged, so the immediately following call waits only
relative to the last successful fetch (it starts at
`max finish (lastTs + T)`, where `lastTs` predates the failed
attempt), not `minInterval` after the failed attempt.  The original
claim is refuted by `throttle_ts_cex`. -/
theorem throttle_ts_update (T lastTs now : ℚ) (j j' : FetchJob) :
    ((runFetch T lastTs now j).2.2
        = if j.ok then (runFetch T lastTs now j).2.1 else lastTs) ∧
    (j.ok = false →
      (runFetch T (runFetch T lastTs now j).2.2 (runFetch T lastTs now j).2.1 j').1
        = max (runFetch T lastTs now j).2.1 (lastTs + T)) := by
  refine ⟨runFetch_last T lastTs now j, fun hok => ?_⟩
  rw [runFetch_last, hok, if_neg (by simp), runFetch_start]

/-- Witness for `throttle_ts_update` at `T = 8`, `lastTs = 0`,
`now = 100`, a failing 1-second attempt followed by another call. -/
theorem throttle_ts_update_witness :
    ((runFetch 8 0 100 ⟨1, false⟩).2.2
        = if (FetchJob.mk 1 false).ok then (runFetch 8 0 100 ⟨1, false⟩).2.1 else 0) ∧
    (runFetch 8 (runFetch 8 0 100 ⟨1, false⟩).2.2 (runFetch 8 0 100 ⟨1, false⟩).2.1
        ⟨1, true⟩).1
      = max (runFetch 8 0 100 ⟨1, false⟩).2.1 (0 + 8) :=
  ⟨(throttle_ts_update 8 0 100 ⟨1, false⟩ ⟨1, true⟩).1,
   (throttle_ts_update 8 0 100 ⟨1, false⟩ ⟨1, true⟩).2 rfl⟩

/-! ## Handler lemmas -/

/-- Exhaustive description of the handler's outcomes once the video id
has resolved to `k`: abort before any fetch with the state unchanged;
cache hit; upstream or cache-write failure after one fetch attempt;
sink failure after the cache was already updated; or full success. -/
theorem transcript_shape (env : Env) (s : Sys) (req : Req) (k : String)
    (hk : resolve_video_id env req = Except.ok k) :
    (∃ e, transcript env s req = (TResult.httpError 400 e, s)) ∨
    (∃ text, env.sinkOk = true ∧ transcript env s req
        = (TResult.ok k text true, { s with sinkWrites := (k, text) :: s.sinkWrites })) ∨
    (∃ e, transcript env s req
        = (TResult.httpError 400 e, { s with fetchLog := (k, req.languages) :: s.fetchLog })) ∨
    (∃ text, transcript env s req
        = (TResult.httpError 400 "sink io error",
            { s with cache := cachePut k text s.cache,
                     fetchLog := (k, req.languages) :: s.fetchLog })) ∨
    (∃ text, env.sinkOk = true ∧ transcript env s req
        = (TResult.ok k text false,
            { s with cache := cachePut k text s.cache,
                     fetchLog := (k, req.languages) :: s.fetchLog,
                     sinkWrites := (k, text) :: s.sinkWrites })) := by
  have fetchCase :
      (req.no_cache = true ∨ (req.no_cache = false ∧ env.cacheReadOk = true ∧
          s.cache.lookup k = none)) →
      (∃ e, transcript env s req
          = (TResult.httpError 400 e, { s with fetchLog := (k, req.languages) :: s.fetchLog })) ∨
      (∃ text, transcript env s req
          = (TResult.httpError 400 "sink io error",
              { s with cache := cachePut k text s.cache,
                       fetchLog := (k, req.languages) :: s.fetchLog })) ∨
      (∃ text, env.sinkOk = true ∧ transcript env s req
          = (TResult.ok k text false,
              { s with cache := cachePut k text s.cache,
                       fetchLog := (k, req.languages) :: s.fetchLog,
                       sinkWrites := (k, text) :: s.sinkWrites })) := by
    intro hmiss
    rcases hup : env.upstream k req.languages with e | text
    · refine Or.inl ⟨e, ?_⟩
      unfold transcript; rw [hk]
      rcases hmiss with hnc | ⟨hnc, hro, hl⟩
      · simp [hnc, hup]
      · simp [hnc, hro, hl, hup]
    · by_cases hw : env.cacheWriteOk = true
      · by_cases hs' : env.sinkOk = true
        · refine Or.inr (Or.inr ⟨text, hs', ?_⟩)
          unfold transcript; rw [hk]
          rcases hmiss with hnc | ⟨hnc, hro, hl⟩
          · simp [hnc, hup, hw, hs']
          · simp [hnc, hro, hl, hup, hw, hs']
        · refine Or.inr (Or.inl ⟨text, ?_⟩)
          unfold transcript; rw [hk]
          rcases hmiss with hnc | ⟨hnc, hro, hl⟩
          · simp [hnc, hup, hw, hs']
          · simp [hnc, hro, hl, hup, hw, hs']
      · refine Or.inl ⟨"database error", ?_⟩
        unfold transcript; rw [hk]
        rcases hmiss with hnc | ⟨hnc, hro, hl⟩
        · simp [hnc, hup, hw]
        · simp [hnc, hro, hl, hup, hw]
  by_cases hnc : req.no_cache = true
  · rcases fetchCase (Or.inl hnc) with h | h | h
    · exact Or.inr (Or.inr (Or.inl h))
    · exact Or.inr (Or.inr (Or.inr (Or.inl h)))
    · exact Or.inr (Or.inr (Or.inr (Or.inr h)))
  · have hnc' : req.no_cache = false := by simpa using hnc
    by_cases hro : env.cacheReadOk = true
    · rcases hl : s.cache.lookup k with _ | text
      · rcases fetchCase (Or.inr ⟨hnc', hro, hl⟩) with h | h | h
        · exact Or.inr (Or.inr (Or.inl h))
        · exact Or.inr (Or.inr (Or.inr (Or.inl h)))
        · exact Or.inr (Or.inr (Or.inr (Or.inr h)))
      · by_cases hs' : env.sinkOk = true
        · refine Or.inr (Or.inl ⟨text, hs', ?_⟩)
          unfold transcript; rw [hk]; simp [hnc', hro, hl, hs']
        · refine Or.inl ⟨"sink io error", ?_⟩
          unfold transcript; rw [hk]; simp [hnc', hro, hl, hs']
    · refine Or.inl ⟨"database error", ?_⟩
      unfold transcript; rw [hk]; simp [hnc', hro]

/-! ## Claim theorems: handler -/

/-- C2: with `no_cache` false, a resolvable key, a readable cache
holding an entry for that key, and a working artifact sink, the
handler returns the cached text with `cached=true`, enters the
throttle gate for no upstream call (the fetch log is unchanged), and
leaves the cache unchanged. -/
theorem fast_path (env : Env) (s : Sys) (req : Req) (v text : String)
    (hnb : req.no_cache = false)
    (hvid : resolve_video_id env req = Except.ok v)
    (hro : env.cacheReadOk = true)
    (hhit : s.cache.lookup v = some text)
    (hsink : env.sinkOk = true) :
    transcript env s req
      = (TResult.ok v text true, { s with sinkWrites := (v, text) :: s.sinkWrites })
    ∧ (transcript env s req).2.fetchLog = s.fetchLog
    ∧ (transcript env s req).2.cache = s.cache := by
  have h1 : transcript env s req
      = (TResult.ok v text true, { s with sinkWrites := (v, text) :: s.sinkWrites }) := by
    unfold transcript; rw [hvid]; simp [hnb, hro, hhit, hsink]
  exact ⟨h1, by rw [h1], by rw [h1]⟩

/-- Witness for `fast_path`: a cache holding `abc123` answers the
request without any upstream fetch. -/
theorem fast_path_witness :
    transcript ⟨true, true, true, fun _ _ => Except.ok "zzz", fun _ => Except.error "bad url"⟩
        ⟨[("abc123", "hello world")], [], []⟩ ⟨none, some "abc123", ["en"], false⟩
      = (TResult.ok "abc123" "hello world" true,
          ⟨[("abc123", "hello world")], [], [("abc123", "hello world")]⟩)
    ∧ (transcript ⟨true, true, true, fun _ _ => Except.ok "zzz", fun _ => Except.error "bad url"⟩
        ⟨[("abc123", "hello world")], [], []⟩ ⟨none, some "abc123", ["en"], false⟩).2.fetchLog
        = []
    ∧ (transcript ⟨true, true, true, fun _ _ => Except.ok "zzz", fun _ => Except.error "bad url"⟩
        ⟨[("abc123", "hello world")], [], []⟩ ⟨none, some "abc123", ["en"], false⟩).2.cache
        = [("abc123", "hello world")] :=
  fast_path _ _ _ "abc123" "hello world" rfl rfl rfl rfl rfl

/-- C3: with `no_cache` true the handler skips the cache lookup and
always enters the throttle gate and calls upstream (the fetch log
grows by one entry) even though an entry for the key exists; on a
successful fetch (and working storage and sink) it overwrites the
entry and returns `cached=false`. -/
theorem bypass_semantics (env : Env) (s : Sys) (req : Req) (v old text : String)
    (hnb : req.no_cache = true)
    (hvid : resolve_video_id env req = Except.ok v)
    (hold : s.cache.lookup v = some old)
    (hup : env.upstream v req.languages = Except.ok text)
    (hw : env.cacheWriteOk = true)
    (hsink : env.sinkOk = true) :
    (transcript env s req).1 = TResult.ok v text false
    ∧ (transcript env s req).2.fetchLog = (v, req.languages) :: s.fetchLog
    ∧ (transcript env s req).2.cache.lookup v = some text := by
  have h1 : transcript env s req
      = (TResult.ok v text false,
          { s with cache := cachePut v text s.cache,
                   fetchLog := (v, req.languages) :: s.fetchLog,
                   sinkWrites := (v, text) :: s.sinkWrites }) := by
    unfold transcript; rw [hvid]; simp [hnb, hup, hw, hsink]
  rw [h1]
  refine ⟨rfl, rfl, ?_⟩
  simp [cachePut, List.lookup]

/-- Witness for `bypass_semantics`: a bypass request for `k1`
refetches although `k1` is cached, and replaces the old entry. -/
theorem bypass_semantics_witness :
    (transcript ⟨true, true, true, fun _ _ => Except.ok "fresh", fun _ => Except.error "bad"⟩
        ⟨[("k1", "old")], [], []⟩ ⟨none, some "k1", ["en"], true⟩).1
      = TResult.ok "k1" "fresh" false
    ∧ (transcript ⟨true, true, true, fun _ _ => Except.ok "fresh", fun _ => Except.error "bad"⟩
        ⟨[("k1", "old")], [], []⟩ ⟨none, some "k1", ["en"], true⟩).2.fetchLog
        = ("k1", ["en"]) :: []
    ∧ (transcript ⟨true, true, true, fun _ _ => Except.ok "fresh", fun _ => Except.error "bad"⟩
        ⟨[("k1", "old")], [], []⟩ ⟨none, some "k1", ["en"], true⟩).2.cache.lookup "k1"
        = some "fresh" :=
  bypass_semantics _ _ _ "k1" "old" "fresh" rfl rfl rfl rfl rfl rfl

/-- C4: when the upstream client fails for a missing key, the handler
returns the error as HTTP 400, the cache is not created or modified,
and an identical second request attempts the fetch again, passing
through the throttle gate again (a second fetch-log entry). -/
theorem error_non_pollution (env : Env) (s : Sys) (req : Req) (v e : String)
    (hnb : req.no_cache = false)
    (hvid : resolve_video_id env req = Except.ok v)
    (hro : env.cacheReadOk = true)
    (hmiss : s.cache.lookup v = none)
    (hup : env.upstream v req.languages = Except.error e) :
    transcript env s req
      = (TResult.httpError 400 e, { s with fetchLog := (v, req.languages) :: s.fetchLog })
    ∧ (transcript env s req).2.cache = s.cache
    ∧ (transcript env (transcript env s req).2 req).2.fetchLog
        = (v, req.languages) :: (v, req.languages) :: s.fetchLog := by
  have h1 : transcript env s req
      = (TResult.httpError 400 e, { s with fetchLog := (v, req.languages) :: s.fetchLog }) := by
    unfold transcript; rw [hvid]; simp [hnb, hro, hmiss, hup]
  have h2 : transcript env { s with fetchLog := (v, req.languages) :: s.fetchLog } req
      = (TResult.httpError 400 e,
          { s with fetchLog := (v, req.languages) :: (v, req.languages) :: s.fetchLog }) := by
    unfold transcript; rw [hvid]; simp [hnb, hro, hmiss, hup]
  refine ⟨h1, by rw [h1], ?_⟩
  rw [h1, h2]

/-- Witness for `error_non_pollution`: an always-failing upstream for
`k1` leaves the cache empty and is attempted again on retry. -/
theorem error_non_pollution_witness :
    transcript ⟨true, true, true, fun _ _ => Except.error "no transcript", fun _ => Except.error "bad"⟩
        ⟨[], [], []⟩ ⟨none, some "k1", ["en"], false⟩
      = (TResult.httpError 400 "no transcript", ⟨[], [("k1", ["en"])], []⟩)
    ∧ (transcript ⟨true, true, true, fun _ _ => Except.error "no transcript", fun _ => Except.error "bad"⟩
        ⟨[], [], []⟩ ⟨none, some "k1", ["en"], false⟩).2.cache = []
    ∧ (transcript ⟨true, true, true, fun _ _ => Except.error "no transcript", fun _ => Except.error "bad"⟩
        (transcript ⟨true, true, true, fun _ _ => Except.error "no transcript", fun _ => Except.error "bad"⟩
          ⟨[], [], []⟩ ⟨none, some "k1", ["en"], false⟩).2
        ⟨none, some "k1", ["en"], false⟩).2.fetchLog
      = ("k1", ["en"]) :: ("k1", ["en"]) :: [] :=
  error_non_pollution
    ⟨true, true, true, fun _ _ => Except.error "no transcript", fun _ => Except.error "bad"⟩
    ⟨[], [], []⟩ ⟨none, some "k1", ["en"], false⟩ "k1" "no transcript" rfl rfl rfl rfl rfl

/-- C5 counterexample: the attempt starting at time 100 fails, and
`_last_fetch_ts` stays 0 — it is not advanced by the attempt — so the
next call starts at 101, without waiting out the 8-second minimum
interval after the failed call. -/
theorem throttle_ts_cex :
    (runFetch 8 0 100 ⟨1, false⟩).2.2 = 0 ∧
    (runFetch 8 (runFetch 8 0 100 ⟨1, false⟩).2.2 (runFetch 8 0 100 ⟨1, false⟩).2.1
        ⟨1, true⟩).1 = 101 ∧
    ¬ ((100 : ℚ) + 8 ≤ 101) := by
  refine ⟨by norm_num [runFetch], by norm_num [runFetch], by norm_num⟩

/-- C6 (amended): a storage failure during the cache lookup aborts the
request — the handler's single try/except turns the sqlite exception
into HTTP 400 — with the state fully unchanged: no upstream fetch, no
throttle-gate entry, no cache change.  The failure is not treated as a
cache miss; the original fail-open claim is refuted by
`read_failure_cex`. -/
theorem read_failure_aborts (env : Env) (s : Sys) (req : Req) (v : String)
    (hnb : req.no_cache = false)
    (hvid : resolve_video_id env req = Except.ok v)
    (hro : env.cacheReadOk = false) :
    transcript env s req = (TResult.httpError 400 "database error", s) := by
  unfold transcript; rw [hvid]; simp [hnb, hro]

/-- Witness for `read_failure_aborts`: a failing sqlite read on a
request for `k1` yields HTTP 400 with nothing else happening. -/
theorem read_failure_aborts_witness :
    transcript ⟨false, true, true, fun _ _ => Except.ok "hello world", fun _ => Except.error "bad"⟩
        ⟨[], [], []⟩ ⟨none, some "k1", ["en"], false⟩
      = (TResult.httpError 400 "database error", ⟨[], [], []⟩) :=
  read_failure_aborts
    ⟨false, true, true, fun _ _ => Except.ok "hello world", fun _ => Except.error "bad"⟩
    ⟨[], [], []⟩ ⟨none, some "k1", ["en"], false⟩ "k1" rfl rfl rfl

/-- C6 counterexample: with a failing cache read and an upstream that
would return `"hello world"`, the request is aborted with HTTP 400 and
the fetch log stays empty — the handler does not proceed to the
throttle-gated upstream fetch as the claim states. -/
theorem read_failure_cex :
    transcript ⟨false, true, true, fun _ _ => Except.ok "hello world", fun _ => Except.error "bad"⟩
        ⟨[], [], []⟩ ⟨none, some "k2", ["en"], false⟩
      = (TResult.httpError 400 "database error", ⟨[], [], []⟩)
    ∧ (transcript ⟨false, true, true, fun _ _ => Except.ok "hello world", fun _ => Except.error "bad"⟩
        ⟨[], [], []⟩ ⟨none, some "k2", ["en"], false⟩).2.fetchLog = [] := by
  constructor
  · unfold transcript; simp [resolve_video_id]
  · unfold transcript; simp [resolve_video_id]

/-- C7 (amended): a cache-write failure after a successful upstream
fetch fails the whole request: the sqlite exception reaches the
try/except and the handler answers HTTP 400 — the already-fetched
content is discarded, not returned (the cache is unchanged and one
fetch attempt was logged).  The original keep-the-content claim is
refuted by `write_failure_cex`. -/
theorem write_failure_discards (env : Env) (s : Sys) (req : Req) (v text : String)
    (hnb : req.no_cache = false)
    (hvid : resolve_video_id env req = Except.ok v)
    (hro : env.cacheReadOk = true)
    (hmiss : s.cache.lookup v = none)
    (hup : env.upstream v req.languages = Except.ok text)
    (hw : env.cacheWriteOk = false) :
    transcript env s req
      = (TResult.httpError 400 "database error",
          { s with fetchLog := (v, req.languages) :: s.fetchLog }) := by
  unfold transcript; rw [hvid]; simp [hnb, hro, hmiss, hup, hw]

/-- Witness for `write_failure_discards`: upstream returns
`"hello world"` for `k1`, the cache write fails, the caller gets 400. -/
theorem write_failure_discards_witness :
    transcript ⟨true, false, true, fun _ _ => Except.ok "hello world", fun _ => Except.error "bad"⟩
        ⟨[], [], []⟩ ⟨none, some "k1", ["en"], false⟩
      = (TResult.httpError 400 "database error", ⟨[], [("k1", ["en"])], []⟩) :=
  write_failure_discards
    ⟨true, false, true, fun _ _ => Except.ok "hello world", fun _ => Except.error "bad"⟩
    ⟨[], [], []⟩ ⟨none, some "k1", ["en"], false⟩ "k1" "hello world" rfl rfl rfl rfl rfl rfl

/-- C7 counterexample: the upstream fetch for `k2` succeeds with
`"hello world"`, yet with a failing cache write the handler returns
HTTP 400 — the fetched content is not returned to the caller, against
the claim. -/
theorem write_failure_cex :
    transcript ⟨true, false, true, fun _ _ => Except.ok "hello world", fun _ => Except.error "bad"⟩
        ⟨[], [], []⟩ ⟨none, some "k2", ["en"], false⟩
      = (TResult.httpError 400 "database error", ⟨[], [("k2", ["en"])], []⟩)
    ∧ TResult.httpError 400 "database error" ≠ TResult.ok "k2" "hello world" false := by
  constructor
  · unfold transcript; simp [resolve_video_id]
  · simp

/-- C8 (amended): every successful resolution — cache hit or fresh
fetch — appends the content to the artifact sink, but a sink write
failure is propagated, not swallowed: when `_write_transcript_file`
raises, the try/except answers HTTP 400 and no request can succeed.
The original never-propagated claim is refuted by `sink_failure_cex`. -/
theorem sink_forward (env : Env) (s : Sys) (req : Req) :
    (∀ k t c s', transcript env s req = (TResult.ok k t c, s') →
        s'.sinkWrites = (k, t) :: s.sinkWrites) ∧
    (env.sinkOk = false → ∀ k t c, (transcript env s req).1 ≠ TResult.ok k t c) := by
  constructor
  · intro k t c s' h
    rcases hres : resolve_video_id env req with e | k'
    · have hx : transcript env s req = (TResult.httpError 400 e, s) := by
        unfold transcript; rw [hres]
      rw [hx] at h; simp at h
    · rcases transcript_shape env s req k' hres with ⟨e, he⟩ | ⟨text, _, ht⟩ | ⟨e, he⟩ |
        ⟨text, ht⟩ | ⟨text, _, ht⟩
      · rw [he] at h; simp at h
      · rw [ht] at h
        simp only [Prod.mk.injEq, TResult.ok.injEq] at h
        obtain ⟨⟨hk1, ht1, _⟩, hs1⟩ := h
        subst hk1; subst ht1; rw [← hs1]
      · rw [he] at h; simp at h
      · rw [ht] at h; simp at h
      · rw [ht] at h
        simp only [Prod.mk.injEq, TResult.ok.injEq] at h
        obtain ⟨⟨hk1, ht1, _⟩, hs1⟩ := h
        subst hk1; subst ht1; rw [← hs1]
  · intro hs k t c h
    rcases hres : resolve_video_id env req with e | k'
    · have hx : transcript env s req = (TResult.httpError 400 e, s) := by
        unfold transcript; rw [hres]
      rw [hx] at h; simp at h
    · rcases transcript_shape env s req k' hres with ⟨e, he⟩ | ⟨text, hsk, ht⟩ | ⟨e, he⟩ |
        ⟨text, ht⟩ | ⟨text, hsk, ht⟩
      · rw [he] at h; simp at h
      · simp [hs] at hsk
      · rw [he] at h; simp at h
      · rw [ht] at h; simp at h
      · simp [hs] at hsk

/-- Witness for `sink_forward`: a fresh fetch of `"hello"` for `k1`
lands in the artifact sink, and the same request with a failing sink
does not produce a success result. -/
theorem sink_forward_witness :
    (Sys.mk [("k1", "hello")] [("k1", ["en"])] [("k1", "hello")]).sinkWrites
      = ("k1", "hello") :: ([] : List (String × String))
    ∧ (transcript ⟨true, true, false, fun _ _ => Except.ok "hello", fun _ => Except.error "bad"⟩
        ⟨[], [], []⟩ ⟨none, some "k1", ["en"], false⟩).1 ≠ TResult.ok "k1" "hello" false := by
  constructor
  · exact (sink_forward
      ⟨true, true, true, fun _ _ => Except.ok "hello", fun _ => Except.error "bad"⟩
      ⟨[], [], []⟩ ⟨none, some "k1", ["en"], false⟩).1 "k1" "hello" false
      ⟨[("k1", "hello")], [("k1", ["en"])], [("k1", "hello")]⟩ rfl
  · exact (sink_forward
      ⟨true, true, false, fun _ _ => Except.ok "hello", fun _ => Except.error "bad"⟩
      ⟨[], [], []⟩ ⟨none, some "k1", ["en"], false⟩).2 rfl "k1" "hello" false

/-- C8 counterexample: a cache-hit request for `abc123` with a failing
artifact-sink write is answered with HTTP 400, not with its content —
the sink failure is propagated to the caller, against the claim. -/
theorem sink_failure_cex :
    transcript ⟨true, true, false, fun _ _ => Except.ok "zzz", fun _ => Except.error "bad"⟩
        ⟨[("abc123", "hello world")], [], []⟩ ⟨none, some "abc123", ["en"], false⟩
      = (TResult.httpError 400 "sink io error", ⟨[("abc123", "hello world")], [], []⟩)
    ∧ TResult.httpError 400 "sink io error" ≠ TResult.ok "abc123" "hello world" true := by
  constructor
  · unfold transcript; simp [resolve_video_id]
  · simp

/-- C9: when the language preference list is `pre ++ l :: post` where
no language of `pre` has transcript data and `l` has segments `segs`,
the fetched content is exactly the segment texts of `l`, in provider
order, joined with single spaces. -/
theorem fetch_text_first_language (tl : List (String × List String))
    (pre post : List String) (l : String) (segs : List String)
    (hpre : ∀ x ∈ pre, tl.lookup x = none)
    (hl : tl.lookup l = some segs) :
    fetch_transcript_text tl (pre ++ l :: post)
      = Except.ok (String.intercalate " " segs) := by
  have hfind : find_transcript tl (pre ++ l :: post) = some segs := by
    induction pre with
    | nil => simp [find_transcript, hl]
    | cons x xs ih =>
      have hx := hpre x (by simp)
      have ih' := ih (fun y hy => hpre y (by simp [hy]))
      simp [find_transcript, hx, ih']
  simp [fetch_transcript_text, hfind]

/-- Witness for `fetch_text_first_language`: with `en` unavailable and
`en-US` carrying `["hello", "world"]`, the preference list
`["en", "en-US", "it"]` yields `"hello world"`. -/
theorem fetch_text_first_language_witness :
    fetch_transcript_text [("it", ["ciao", "mondo"]), ("en-US", ["hello", "world"])]
        (["en"] ++ "en-US" :: ["it"])
      = Except.ok (String.intercalate " " ["hello", "world"]) :=
  fetch_text_first_language [("it", ["ciao", "mondo"]), ("en-US", ["hello", "world"])]
    ["en"] ["it"] "en-US" ["hello", "world"]
    (by intro x hx; fin_cases hx <;> rfl) rfl

/-- C10: the key of a request is `video_id` whenever that field is a
non-empty string — and the url is then never consulted: the handler's
outcome is identical for every extractor — while an absent or empty
`video_id` makes the key come from `extract_video_id(url)`; if that
extraction fails, the request ends as HTTP 400 with the state
untouched (no cache lookup or write, no throttle-gate entry, no
upstream call).  Whatever key resolves is the one in a success
response, in the fetch attempt, and in the cache write. -/
theorem key_selection (env : Env) (s : Sys) (req : Req) :
    (∀ v, req.video_id = some v → v ≠ "" →
        resolve_video_id env req = Except.ok v ∧
        ∀ ext', transcript { env with extract := ext' } s req = transcript env s req) ∧
    (req.video_id.getD "" = "" →
        ∀ e, env.extract ((req.url.getD "").trim) = Except.error e →
          transcript env s req = (TResult.httpError 400 e, s)) ∧
    (∀ k, resolve_video_id env req = Except.ok k →
        (∀ kk t c, (transcript env s req).1 = TResult.ok kk t c → kk = k) ∧
        ((transcript env s req).2.fetchLog = s.fetchLog ∨
          (transcript env s req).2.fetchLog = (k, req.languages) :: s.fetchLog) ∧
        ((transcript env s req).2.cache = s.cache ∨
          ∃ t, (transcript env s req).2.cache = cachePut k t s.cache)) := by
  refine ⟨?_, ?_, ?_⟩
  · intro v hv hne
    have hres : resolve_video_id env req = Except.ok v := by
      simp [resolve_video_id, hv, hne]
    refine ⟨hres, fun ext' => ?_⟩
    have hres' : resolve_video_id { env with extract := ext' } req = Except.ok v := by
      simp [resolve_video_id, hv, hne]
    unfold transcript
    rw [hres, hres']
  · intro hempty e he
    have hres : resolve_video_id env req = Except.error e := by
      rcases hv : req.video_id with _ | v
      · simpa [resolve_video_id, hv] using he
      · have : v = "" := by simpa [hv] using hempty
        subst this
        simpa [resolve_video_id, hv] using he
    unfold transcript; rw [hres]
  · intro k hk
    rcases transcript_shape env s req k hk with ⟨e, he⟩ | ⟨text, _, ht⟩ | ⟨e, he⟩ |
      ⟨text, ht⟩ | ⟨text, _, ht⟩
    · rw [he]
      exact ⟨fun kk t c h => absurd h (by simp), Or.inl rfl, Or.inl rfl⟩
    · rw [ht]
      refine ⟨?_, Or.inl rfl, Or.inl rfl⟩
      intro kk t c h
      simp only [TResult.ok.injEq] at h
      exact h.1.symm
    · rw [he]
      exact ⟨fun kk t c h => absurd h (by simp), Or.inr rfl, Or.inl rfl⟩
    · rw [ht]
      exact ⟨fun kk t c h => absurd h (by simp), Or.inr rfl, Or.inr ⟨text, rfl⟩⟩
    · rw [ht]
      refine ⟨?_, Or.inr rfl, Or.inr ⟨text, rfl⟩⟩
      intro kk t c h
      simp only [TResult.ok.injEq] at h
      exact h.1.symm

/-- Witness for `key_selection`: a request carrying both a url and the
non-empty `video_id = "vid42"` resolves to `"vid42"` without touching
the extractor; a url-only request whose extraction fails is answered
HTTP 400 with nothing changed; the resolved key is the one fetched. -/
theorem key_selection_witness :
    (resolve_video_id
        ⟨true, true, true, fun _ _ => Except.ok "zzz", fun _ => Except.error "Could not extract video id"⟩
        ⟨some "https://example.com", some "vid42", ["en"], false⟩ = Except.ok "vid42" ∧
      ∀ ext',
        transcript
            ⟨true, true, true, fun _ _ => Except.ok "zzz", ext'⟩
            ⟨[], [], []⟩ ⟨some "https://example.com", some "vid42", ["en"], false⟩
          = transcript
              ⟨true, true, true, fun _ _ => Except.ok "zzz", fun _ => Except.error "Could not extract video id"⟩
              ⟨[], [], []⟩ ⟨some "https://example.com", some "vid42", ["en"], false⟩) ∧
    (transcript
        ⟨true, true, true, fun _ _ => Except.ok "zzz", fun _ => Except.error "Could not extract video id"⟩
        ⟨[], [], []⟩ ⟨some "nonsense", none, ["en"], false⟩
      = (TResult.httpError 400 "Could not extract video id", ⟨[], [], []⟩)) := by
  constructor
  · exact (key_selection
      ⟨true, true, true, fun _ _ => Except.ok "zzz", fun _ => Except.error "Could not extract video id"⟩
      ⟨[], [], []⟩ ⟨some "https://example.com", some "vid42", ["en"], false⟩).1
      "vid42" rfl (by simp)
  · exact (key_selection
      ⟨true, true, true, fun _ _ => Except.ok "zzz", fun _ => Except.error "Could not extract video id"⟩
      ⟨[], [], []⟩ ⟨some "nonsense", none, ["en"], false⟩).2.1 rfl
      "Could not extract video id" rfl

end YtTranscript
